import Mathlib

/-!
Shallow embedding of `examples/simple-mcp-server.py`, a stateless FastAPI
server with six handlers.  Each handler is a pure function of its inputs
(clock reads, the random index supplied by `random.choice`, the decoded
request body); instants are modelled as integers counting microseconds
since the epoch, the resolution of `datetime.now()`.
-/

namespace SimpleMcpServer

/-- JSON values, as decoded from a request body: the tagged union over
null, booleans, numbers, strings, arrays and objects.  Objects are
ordered association lists, matching the decoded Python `dict`. -/
inductive Json where
  | null : Json
  | bool (b : Bool) : Json
  | num (q : ℚ) : Json
  | str (s : String) : Json
  | arr (xs : List Json) : Json
  | obj (fields : List (String × Json)) : Json

/-- `true` exactly when the JSON value is an object (a Python `dict`). -/
def Json.isObj : Json → Bool
  | .obj _ => true
  | _ => false

/-- HTTP methods used by the server's routes. -/
inductive HttpMethod where
  | GET : HttpMethod
  | POST : HttpMethod
deriving DecidableEq

/-- The route table registered on the FastAPI `app`: one `@app.get` /
`@app.post` decorator per handler, as (method, path) pairs rendered with
the method as its uppercase string. -/
def routes : List (String × String) :=
  [("GET", "/"), ("GET", "/health"), ("GET", "/random-fact"),
   ("GET", "/time"), ("POST", "/echo"), ("POST", "/mcp")]

/-- Response body of `GET /`. -/
structure RootResponse where
  message : String
deriving DecidableEq

/-- Handler `root`: returns the constant message object. -/
def root : RootResponse :=
  { message := "Simple MCP Server is running!" }

/-- Response body of `GET /health`; `timestamp_us` is the instant denoted
by the ISO8601 string `datetime.now().isoformat()`, in microseconds. -/
structure HealthResponse where
  status : String
  timestamp_us : ℤ
deriving DecidableEq

/-- Handler `health`: one clock read `now_us` supplies the timestamp. -/
def health (now_us : ℤ) : HealthResponse :=
  { status := "healthy", timestamp_us := now_us }

/-- The local list `facts` of the `get_random_fact` handler: five fixed
strings. -/
def facts : List String :=
  ["The MCP protocol was designed to standardize AI tool integration",
   "Octopuses have three hearts and blue blood",
   "Honey never spoils - archaeologists have found edible honey in Egyptian tombs",
   "A group of flamingos is called a \x27flamboyance\x27",
   "The shortest war in history lasted only 38-45 minutes"]

/-- Response body of `GET /random-fact`. -/
structure FactResponse where
  fact : String
  timestamp_us : ℤ
deriving DecidableEq

/-- Handler `get_random_fact`: `random.choice(facts)` draws a uniformly
distributed index into `facts`, modelled as the parameter `i`; `now_us`
is the clock read for the timestamp. -/
def get_random_fact (i : Fin facts.length) (now_us : ℤ) : FactResponse :=
  { fact := facts.get i, timestamp_us := now_us }

/-- Response body of `GET /time`; `current_time_us` is the instant denoted
by the ISO8601 string, `unix_timestamp_us` the instant denoted by the
float `datetime.now().timestamp()`, both in microseconds. -/
structure TimeResponse where
  current_time_us : ℤ
  timezone : String
  unix_timestamp_us : ℤ
deriving DecidableEq

/-- Handler `get_current_time`: the body performs two separate
`datetime.now()` reads, modelled as the two parameters `t1` (for
`current_time`) and `t2` (for `unix_timestamp`). -/
def get_current_time (t1 t2 : ℤ) : TimeResponse :=
  { current_time_us := t1, timezone := "UTC", unix_timestamp_us := t2 }

/-- Response body of `POST /echo`: the decoded request dict is returned
unmodified in `echoed`. -/
structure EchoResponse where
  echoed : List (String × Json)
  timestamp_us : ℤ
  message : String

/-- Handler `echo_message`: wraps the decoded dict `data` unchanged. -/
def echo_message (data : List (String × Json)) (now_us : ℤ) : EchoResponse :=
  { echoed := data, timestamp_us := now_us, message := "Echo successful" }

/-- Outcome of a request to `POST /echo`: either the handler's success
payload or a client-error status produced by the framework before the
handler runs. -/
inductive EchoResult where
  | ok (r : EchoResponse) : EchoResult
  | clientError (status : ℕ) : EchoResult

/-- `True` exactly on a client-error (4xx) outcome. -/
def EchoResult.is4xx : EchoResult → Prop
  | .ok _ => False
  | .clientError s => 400 ≤ s ∧ s < 500

/-- `true` exactly when the route produced the handler's success payload. -/
def EchoResult.isOk : EchoResult → Bool
  | .ok _ => true
  | .clientError _ => false

/-- Modelled from the spec: FastAPI's request-body pipeline for the
`data: dict` parameter of `echo_message` is framework code, absent from
the repository.  The raw body arrives as `none` when it is not valid
JSON, or as `some j` for the decoded JSON value `j`; per the spec,
malformed JSON "produces the framework's default 4xx error" (FastAPI's
422) without running the handler, and the `dict` annotation likewise
rejects any decoded value that is not a JSON object with a 422. -/
def echoRoute (body : Option Json) (now_us : ℤ) : EchoResult :=
  match body with
  | none => .clientError 422
  | some (Json.obj fields) => .ok (echo_message fields now_us)
  | some _ => .clientError 422

/-- A tool descriptor of the `/mcp` catalog. -/
structure ToolDescriptor where
  name : String
  description : String
  url : String
  method : String
deriving DecidableEq

/-- The `server_info` record of the `/mcp` response. -/
structure ServerInfo where
  name : String
  version : String
  description : String
deriving DecidableEq

/-- Response body of `POST /mcp`. -/
structure McpResponse where
  tools : List ToolDescriptor
  server_info : ServerInfo
deriving DecidableEq

/-- Handler `mcp_endpoint`: the static tool catalog and server info,
exactly the literal returned by the Python function. -/
def mcp_endpoint : McpResponse :=
  { tools :=
      [{ name := "get_random_fact",
         description := "Get a random interesting fact",
         url := "/random-fact",
         method := "GET" },
       { name := "get_current_time",
         description := "Get the current time",
         url := "/time",
         method := "GET" },
       { name := "health_check",
         description := "Check server health status",
         url := "/health",
         method := "GET" }],
    server_info :=
      { name := "Simple MCP Server",
        version := "1.0.0",
        description := "A simple MCP server for testing" } }

/-- The route for `POST /mcp`: the handler declares no body parameter, so
the framework hands it nothing; any request body (well-formed or not) is
ignored and the static payload is returned. -/
def mcpRoute (_body : Option Json) : McpResponse :=
  mcp_endpoint

/-- `true` when every one of the four string fields of a tool descriptor
is non-empty. -/
def nonEmptyFields (d : ToolDescriptor) : Bool :=
  !d.name.isEmpty && !d.description.isEmpty && !d.url.isEmpty && !d.method.isEmpty

/-- `true` when `(m, u)` is a registered (method, path) pair of the
server's route table. -/
def registered (m u : String) : Bool :=
  routes.any (fun p => p.1 == m && p.2 == u)

/-- C1: for every valid JSON object `X` posted to `/echo`, the route runs
the handler and the response's `echoed` field is exactly `X`, unmodified
(round-trip identity of the echo handler). -/
theorem echo_roundtrip_identity :
    ∀ (X : List (String × Json)) (t : ℤ),
      ∃ r : EchoResponse, echoRoute (some (Json.obj X)) t = .ok r ∧ r.echoed = X := by
  intro X t
  exact ⟨echo_message X t, rfl, rfl⟩

/-- C2: the fact list has exactly five pairwise-distinct entries, every
call to `/random-fact` returns a member of that list, and every entry of
the list is hit by some value of the uniformly distributed index drawn by
`random.choice` — so a uniform pick of the index induces a uniform
distribution over all five facts, reselected on each call. -/
theorem random_fact_uniform_member (i : Fin facts.length) (t : ℤ)
    (f : String) (hf : f ∈ facts) :
    facts.length = 5 ∧ facts.Nodup ∧
      (get_random_fact i t).fact ∈ facts ∧
      ∃ j : Fin facts.length, ∀ u : ℤ, (get_random_fact j u).fact = f := by
  refine ⟨rfl, by decide, ?_, ?_⟩
  · exact List.get_mem facts i.1 i.2
  · obtain ⟨j, hj⟩ := List.get_of_mem hf
    exact ⟨j, fun u => hj⟩

/-- Witness for C2 at index 0 and the second listed fact. -/
theorem random_fact_uniform_member_witness :
    facts.length = 5 ∧ facts.Nodup ∧
      (get_random_fact ⟨0, by decide⟩ 0).fact ∈ facts ∧
      ∃ j : Fin facts.length, ∀ u : ℤ,
        (get_random_fact j u).fact = "Octopuses have three hearts and blue blood" :=
  random_fact_uniform_member ⟨0, by decide⟩ 0
    "Octopuses have three hearts and blue blood" (by simp [facts])

/-- C3 counterexample: the static catalog returned by `/mcp` does not
have five tool descriptors. -/
theorem mcp_catalog_not_five : ¬ mcp_endpoint.tools.length = 5 := by decide

/-- C3 (amended): the static tool catalog returned by `/mcp` consists of
exactly three tool-descriptor records (name, description, url, method),
namely `get_random_fact`, `get_current_time` and `health_check`. -/
theorem mcp_catalog_three_descriptors :
    mcp_endpoint.tools.length = 3 ∧
      mcp_endpoint.tools.map ToolDescriptor.name =
        ["get_random_fact", "get_current_time", "health_check"] :=
  ⟨rfl, rfl⟩

/-- C4: every `/mcp` response has exactly 3 entries in `tools`, each with
non-empty `name`, `description`, `url` and `method`, and its
`server_info.version` is `"1.0.0"`. -/
theorem mcp_response_shape :
    mcp_endpoint.tools.length = 3 ∧
      mcp_endpoint.tools.all nonEmptyFields = true ∧
      mcp_endpoint.server_info.version = "1.0.0" :=
  ⟨rfl, by decide, rfl⟩

/-- C6: every `GET /` response body is exactly the constant object
with message `"Simple MCP Server is running!"`. -/
theorem root_constant_message :
    root = { message := "Simple MCP Server is running!" } := rfl

/-- C7: a `POST /echo` whose body is not valid JSON is answered with a
4xx client error and the handler's success payload is never produced. -/
theorem echo_malformed_4xx :
    ∀ t : ℤ, (echoRoute none t).is4xx ∧ (echoRoute none t).isOk = false := by
  intro t
  exact ⟨⟨by norm_num, by norm_num⟩, rfl⟩

/-- C8: the `/mcp` route is entirely static: any two requests, whatever
their bodies (well-formed, malformed or absent), receive identical
responses, and that response is the process-lifetime constant payload. -/
theorem mcp_static (b1 b2 : Option Json) :
    mcpRoute b1 = mcpRoute b2 ∧ mcpRoute b1 = mcp_endpoint :=
  ⟨rfl, rfl⟩

/-- C9: a `POST /echo` whose body decodes to a JSON value that is not an
object (an array, string, number, boolean or null) is rejected with a
4xx client error: the handler accepts only dict-typed bodies. -/
theorem echo_nonobject_4xx (j : Json) (t : ℤ) (h : j.isObj = false) :
    (echoRoute (some j) t).is4xx ∧ (echoRoute (some j) t).isOk = false := by
  cases j with
  | obj fields => simp [Json.isObj] at h
  | null => exact ⟨⟨by norm_num, by norm_num⟩, rfl⟩
  | bool b => exact ⟨⟨by norm_num, by norm_num⟩, rfl⟩
  | num q => exact ⟨⟨by norm_num, by norm_num⟩, rfl⟩
  | str s => exact ⟨⟨by norm_num, by norm_num⟩, rfl⟩
  | arr xs => exact ⟨⟨by norm_num, by norm_num⟩, rfl⟩

/-- Witness for C9 at the JSON array `[]`. -/
theorem echo_nonobject_4xx_witness :
    (Json.arr []).isObj = false ∧
      ((echoRoute (some (Json.arr [])) 0).is4xx ∧
        (echoRoute (some (Json.arr [])) 0).isOk = false) :=
  ⟨rfl, echo_nonobject_4xx (Json.arr []) 0 rfl⟩

/-- C10: every tool descriptor in the `/mcp` catalog points at a route the
server actually registers: its (url, method) pairs are exactly
`(/random-fact, GET)`, `(/time, GET)`, `(/health, GET)`, and each
(method, url) pair matches an entry of the registered route table. -/
theorem mcp_tools_registered :
    mcp_endpoint.tools.all (fun d => registered d.method d.url) = true ∧
      mcp_endpoint.tools.map (fun d => (d.url, d.method)) =
        [("/random-fact", "GET"), ("/time", "GET"), ("/health", "GET")] :=
  ⟨by decide, rfl⟩

end SimpleMcpServer
